import Mathlib

/-!
A shallow embedding of `public_share_bot.py` (a gated file-distribution relay
bot): the pagination engine, the inline-keyboard builder, the callback
dispatcher, the upload-session finish/cancel flow, the membership gate and the
debounced media-group aggregator, together with theorems settling the frozen
specification claims about them.

Conventions of the embedding:
  * Telegram / database / network effects are made explicit: every handler is a
    pure function from its inputs (session dict, registry rows, collaborator
    results) to its outputs (new session dict, new registry rows, the message
    ids it delivered to the chat, the channel messages it retracted, and a
    user-visible outcome).
  * `context.user_data` (a Python dict) is the `UserData` structure; a missing
    key is `none` / `[]` / `0`, exactly the defaults the code supplies on
    `dict.get` / `dict.pop`.
  * The `files` table is a `List ShareRecord`; `share_id` is its primary key.
  * Fallible collaborator calls are parameters: the `get_chat_member` call is
    an `Except` value, a database `INSERT` outcome is a `Bool`.
-/

/-- Constant `FILES_PER_PAGE = 10` (source line 47). -/
def FILES_PER_PAGE : Nat := 10

/-- Result of the page computation performed at source lines 209-211 (and
identically at lines 338-340): `total_pages`, the clamped `page`, `offset`. -/
structure PageCalc where
  total_pages : Nat
  page : Nat
  offset : Nat
  deriving Repr, DecidableEq

/-- The pagination computation shared by `show_shared_files_page`
(lines 209-211) and `show_my_files_page` (lines 338-340):
`total_pages = (total_files + FILES_PER_PAGE - 1) // FILES_PER_PAGE`,
`page = max(1, min(page, total_pages))`, `offset = (page - 1) * FILES_PER_PAGE`,
with the page size as a parameter. -/
def paginate (total_files page_size requested : Nat) : PageCalc :=
  let total_pages := (total_files + page_size - 1) / page_size
  let page := max 1 (min requested total_pages)
  { total_pages := total_pages, page := page, offset := (page - 1) * page_size }

/-- The Python slice `all_ids[offset : offset + count]` (source line 212). -/
def pageWindow (all_ids : List Nat) (offset count : Nat) : List Nat :=
  (all_ids.drop offset).take count

/-- The possible values of `member.status` returned by `get_chat_member`. -/
inductive ChatMemberStatus where
  | owner
  | administrator
  | member
  | restricted
  | left
  | banned
  deriving Repr, DecidableEq

/-- Function `is_user_in_group` (source lines 108-114): the membership gate.  The
result of the fallible `get_chat_member` network call for `user_id` is passed
in as an `Except` value; any raised exception yields `false` (the bare
`except Exception` branch), otherwise the status must not be LEFT or BANNED. -/
def is_user_in_group (user_id : Nat) (callResult : Except String ChatMemberStatus) : Bool :=
  match callResult with
  | .error _ => false
  | .ok st => decide (st ≠ .left ∧ st ≠ .banned)

/-- One row of the `files` table (see `setup_database`, lines 80-93, and the
INSERT at line 481).  `message_ids` models the comma-joined `message_id` TEXT
column as the list of channel message ids it encodes. -/
structure ShareRecord where
  share_id : String
  message_ids : List Nat
  uploader_id : Nat
  file_caption : String
  file_type : String
  deriving Repr, DecidableEq

/-- Model of `context.user_data` — the per-user session dict.  Missing keys are the
defaults used by the code's `get`/`pop` calls. -/
structure UserData where
  state : Option String
  session_message_ids : List Nat
  session_file_count : Nat
  pending_share_id : Option String
  last_page_file_ids : List Nat
  last_control_panel_id : Option Nat
  deriving Repr, DecidableEq

/-- Result of `context.user_data.clear()` — the empty dict. -/
def UserData.cleared : UserData :=
  { state := none
  , session_message_ids := []
  , session_file_count := 0
  , pending_share_id := none
  , last_page_file_ids := []
  , last_control_panel_id := none }

/-- An inline keyboard button: display text and the `callback_data` string. -/
structure InlineKeyboardButton where
  text : String
  callback_data : String
  deriving Repr, DecidableEq

/-- The button label of a page-number control (source line 156):
`f"· {p} ·"` for the current page, `str(p)` otherwise. -/
def pageBtnText (p current_page : Nat) : String :=
  if p = current_page then "· " ++ toString p ++ " ·" else toString p

/-- The `if share_id: callback_data += f":{share_id}"` steps (lines 158-159,
167-168, 176-177).  Python truthiness: `None` and the empty string both skip
the suffix. -/
def addShareId (base : String) (share_id : Option String) : String :=
  match share_id with
  | some sid => if sid = "" then base else base ++ ":" ++ sid
  | none => base

/-- Function `create_pagination_keyboard` (source lines 146-185), translated branch by
branch: a row of up to five page-number buttons when `total_pages > 1`
(current page gets the `"noop"` action), then a prev/next row and a
first/last row, each included only when non-empty. -/
def create_pagination_keyboard (current_page total_pages : Nat) (tag : String)
    (share_id : Option String) : List (List InlineKeyboardButton) :=
  let page_rows : List (List InlineKeyboardButton) :=
    if 1 < total_pages then
      let start_page0 := max 1 (current_page - 2)
      let end_page := min total_pages (start_page0 + 4)
      let start_page := max 1 (end_page - 4)
      [(List.range' start_page (end_page + 1 - start_page)).map (fun p =>
        { text := pageBtnText p current_page
        , callback_data :=
            addShareId (if p = current_page then "noop" else tag ++ ":" ++ toString p) share_id })]
    else []
  let nav_row : List InlineKeyboardButton :=
    (if 1 < current_page then
      [{ text := "‹ 上一页"
       , callback_data := addShareId (tag ++ ":" ++ toString (current_page - 1)) share_id }]
     else []) ++
    (if current_page < total_pages then
      [{ text := "下一页 ›"
       , callback_data := addShareId (tag ++ ":" ++ toString (current_page + 1)) share_id }]
     else [])
  let ends_row : List InlineKeyboardButton :=
    (if 1 < current_page then
      [{ text := "« 首页", callback_data := addShareId (tag ++ ":1") share_id }]
     else []) ++
    (if current_page < total_pages then
      [{ text := "末页 »"
       , callback_data := addShareId (tag ++ ":" ++ toString total_pages) share_id }]
     else [])
  page_rows ++ (if nav_row.isEmpty then [] else [nav_row])
    ++ (if ends_row.isEmpty then [] else [ends_row])

/-- Split a character list at the first `':'`, if any. -/
def splitAtColon : List Char → Option (List Char × List Char)
  | [] => none
  | c :: cs =>
    if c = ':' then some ([], cs)
    else
      match splitAtColon cs with
      | none => none
      | some (a, b) => some (c :: a, b)

/-- Python's `s.split(":", 2)` (source line 380): at most two splits, so at
most three parts, the last part keeping any further colons. -/
def pySplit2 (cs : List Char) : List (List Char) :=
  match splitAtColon cs with
  | none => [cs]
  | some (a, r) =>
    match splitAtColon r with
    | none => [a, r]
    | some (b, r2) => [a, b, r2]

/-- Python's `int(...)` on the strings our keyboards produce: a non-empty
string of decimal digits; anything else raises, which the caller surfaces as
an aborted handler. -/
def parseNat (cs : List Char) : Option Nat :=
  if cs ≠ [] ∧ cs.all Char.isDigit then
    some (cs.foldl (fun a c => a * 10 + (c.toNat - 48)) 0)
  else none

/-- Outcome of `show_shared_files_page` (source lines 188-250). -/
inductive ShowPageResult where
  | invalidLink
  | emptyShare
  | shown (delivered : List Nat) (page total_pages : Nat)
  deriving Repr, DecidableEq

/-- Function `show_shared_files_page` (source lines 188-250), as a pure function of the
registry: look up the record by `share_id`; no row yields the "invalid or
removed" reply; an empty id list yields the "no files" reply; otherwise
paginate and deliver the page window by `copy_messages`. -/
def showSharedFilesPage (reg : List ShareRecord) (share_id : String) (page : Nat) :
    ShowPageResult :=
  match reg.find? (fun r => r.share_id == share_id) with
  | none => .invalidLink
  | some r =>
    let all_ids := r.message_ids
    let total_files := all_ids.length
    if total_files = 0 then .emptyShare
    else
      let pc := paginate total_files FILES_PER_PAGE page
      .shown (pageWindow all_ids pc.offset FILES_PER_PAGE) pc.page pc.total_pages

/-- The share link built at source lines 268, 286, 443 and 475:
`f"https://t.me/{bot_username}?start={share_id}"`. -/
def shareLink (bot_username token : String) : String :=
  "https://t.me/" ++ bot_username ++ "?start=" ++ token

/-- User-visible outcome of one `button_callback_handler` invocation. -/
inductive CbOutcome where
  | silent
  | invalidLink
  | emptyShare
  | pageShown (page total_pages : Nat)
  | myFilesPage (requested : Nat)
  | alreadyGone
  | forbidden
  | deleted
  | infoLink (link : String)
  deriving Repr, DecidableEq

/-- Everything one `button_callback_handler` call produces. -/
structure CallbackResult where
  userData : UserData
  registry : List ShareRecord
  delivered : List Nat
  retracted : List Nat
  outcome : CbOutcome
  deriving Repr, DecidableEq

/-- Function `button_callback_handler` (source lines 376-446).  `data` is the button's
`callback_data`; `parts = data.split(":", 2)`; a `"spage"` action first drops
the previous page view's messages and panel from `user_data` (lines 383-392),
then the `page` / `spage` / `delete` / `info` / `noop` chain runs
(lines 394-446).  `delivered` is the chat messages copied from the channel,
`retracted` is the channel messages deleted by the `delete` action. -/
def button_callback_handler (bot_username : String) (reg : List ShareRecord)
    (ud : UserData) (user_id : Nat) (data : String) : CallbackResult :=
  let parts := pySplit2 data.data
  let action := parts.headD []
  let ud1 :=
    if action = "spage".data then
      { ud with last_page_file_ids := [], last_control_panel_id := none }
    else ud
  if action = "page".data then
    match parseNat (parts.getD 1 []) with
    | some p => ⟨ud1, reg, [], [], .myFilesPage p⟩
    | none => ⟨ud1, reg, [], [], .silent⟩
  else if action = "spage".data then
    if parts.length < 3 then ⟨ud1, reg, [], [], .silent⟩
    else
      match parseNat (parts.getD 1 []) with
      | some p =>
        match showSharedFilesPage reg (String.mk (parts.getD 2 [])) p with
        | .invalidLink => ⟨ud1, reg, [], [], .invalidLink⟩
        | .emptyShare => ⟨ud1, reg, [], [], .emptyShare⟩
        | .shown d pg tot =>
          ⟨{ ud1 with last_page_file_ids := d, last_control_panel_id := some 0 },
           reg, d, [], .pageShown pg tot⟩
      | none => ⟨ud1, reg, [], [], .silent⟩
  else if action = "delete".data then
    if parts.length < 3 then ⟨ud1, reg, [], [], .silent⟩
    else
      match parseNat (parts.getD 2 []) with
      | none => ⟨ud1, reg, [], [], .silent⟩
      | some _current_page =>
        let sid := String.mk (parts.getD 1 [])
        match reg.find? (fun r => r.share_id == sid) with
        | none => ⟨ud1, reg, [], [], .alreadyGone⟩
        | some r =>
          if r.uploader_id ≠ user_id then ⟨ud1, reg, [], [], .forbidden⟩
          else
            ⟨ud1, reg.filter (fun q => q.share_id != sid), [], r.message_ids, .deleted⟩
  else if action = "info".data then
    if parts.length < 2 then ⟨ud1, reg, [], [], .silent⟩
    else ⟨ud1, reg, [], [], .infoLink (shareLink bot_username (String.mk (parts.getD 1 [])))⟩
  else
    ⟨ud1, reg, [], [], .silent⟩

/-- User-visible outcome of one `/start` invocation. -/
inductive StartResult where
  | redirect
  | invalidLink
  | emptyShare
  | shown (delivered : List Nat) (page total_pages : Nat)
  | restricted
  | welcome
  deriving Repr, DecidableEq

/-- Handler `start` (source lines 253-311).  `gateResult` is the outcome of the
`get_chat_member` call the handler makes through `is_user_in_group`.  The code
first clears `user_data`, reads the deep-link argument (falling back to the
`pending_share_id` of the just-cleared dict, hence always absent), redirects
non-private chats, then either shows page 1 of the share (authorized), stores
the token as `pending_share_id` and asks the user to join (not authorized), or
shows the welcome keyboard when no token was supplied. -/
def start (gateResult : Except String ChatMemberStatus) (user_id : Nat)
    (reg : List ShareRecord) (arg : Option String) (chatPrivate : Bool) :
    UserData × StartResult :=
  let ud := UserData.cleared
  let target :=
    match arg with
    | some t => some t
    | none => ud.pending_share_id
  if ¬ chatPrivate ∧ target.isSome then (ud, .redirect)
  else
    match target with
    | some t =>
      if is_user_in_group user_id gateResult then
        let ud := { ud with pending_share_id := none }
        match showSharedFilesPage reg t 1 with
        | .invalidLink => (ud, .invalidLink)
        | .emptyShare => (ud, .emptyShare)
        | .shown d p tp =>
          ({ ud with last_page_file_ids := d, last_control_panel_id := some 0 }, .shown d p tp)
      else ({ ud with pending_share_id := some t }, .restricted)
    | none => ({ ud with state := some "default" }, .welcome)

/-- The reply `finish_upload_handler` edits into its processing message. -/
inductive FinishMsg where
  | ignored
  | success (link : String)
  | persistFailed
  | noFiles
  deriving Repr, DecidableEq

/-- Everything one `finish_upload_handler` call produces. -/
structure FinishResult where
  userData : UserData
  registry : List ShareRecord
  msg : FinishMsg
  deriving Repr, DecidableEq

/-- Handler `finish_upload_handler` (source lines 461-502).  Non-private chats are
ignored.  The session's `session_message_ids` / `session_file_count` are
popped up front (lines 468-469).  With a non-empty id list the handler
generates `newToken` (`secrets.token_urlsafe(8)`), INSERTs the row and replies
with the share link; `persistOk = false` models the INSERT raising, caught at
line 492 and surfaced as the retryable "请稍后再试" edit with the transaction
not committed.  With an empty list it replies "您本次没有上传任何文件。".  In
every path the handler then clears `user_data` and sets `state = 'default'`
(lines 499-500). -/
def finish_upload_handler (persistOk : Bool) (newToken bot_username : String)
    (user_id : Nat) (ud : UserData) (reg : List ShareRecord) (chatPrivate : Bool) :
    FinishResult :=
  if ¬ chatPrivate then ⟨ud, reg, .ignored⟩
  else
    let session_message_ids := ud.session_message_ids
    let total_files := ud.session_file_count
    let udFinal : UserData := { UserData.cleared with state := some "default" }
    if session_message_ids.isEmpty then ⟨udFinal, reg, .noFiles⟩
    else if persistOk then
      let record : ShareRecord :=
        { share_id := newToken
        , message_ids := session_message_ids
        , uploader_id := user_id
        , file_caption := "批量上传 (共 " ++ toString total_files ++ " 个文件)"
        , file_type := "合集" }
      ⟨udFinal, reg ++ [record], .success (shareLink bot_username newToken)⟩
    else ⟨udFinal, reg, .persistFailed⟩

/-- Handler `cancel_command` (source lines 503-510): in private chats it runs
`context.user_data.clear()` and then calls `finish_upload_handler` on the
now-empty session. -/
def cancel_command (persistOk : Bool) (newToken bot_username : String)
    (user_id : Nat) (ud : UserData) (reg : List ShareRecord) (chatPrivate : Bool) :
    FinishResult :=
  if ¬ chatPrivate then ⟨ud, reg, .ignored⟩
  else
    finish_upload_handler persistOk newToken bot_username user_id
      UserData.cleared reg chatPrivate

/-- Per-media-group aggregator state: the `bot_data[media_group_id]`
buffer of collected message ids (lines 540-542) and the deadline of the
currently scheduled `run_once` job, if one is pending (line 547). -/
structure AggState where
  buffer : List Nat
  deadline : Option Nat
  deriving Repr, DecidableEq

/-- The debounced aggregator of `file_handler` (source lines 536-547) driven
by a time-ordered list of `(arrival time, message id)` events for ONE media
group, with `D` the `run_once` delay (2 in the source).  On each arrival the
handler appends the id to the group buffer, cancels any pending job
(`job.schedule_removal()`, line 546) and schedules a fresh job at `t + D`
(line 547) — unless the pending job's deadline has already passed, in which
case that job has fired first, draining the buffer
(`process_and_collect_files_job`, lines 511-529, which also deletes the group
entry) and the arrival starts a new group.  After the last arrival the
remaining job fires.  Returns the drained batches in firing order. -/
def debounceRun (D : Nat) : AggState → List (Nat × Nat) → List (List Nat)
  | s, [] =>
    match s.deadline with
    | none => []
    | some _ => [s.buffer]
  | s, (t, m) :: rest =>
    match s.deadline with
    | none => debounceRun D ⟨[m], some (t + D)⟩ rest
    | some d =>
      if t < d then debounceRun D ⟨s.buffer ++ [m], some (t + D)⟩ rest
      else s.buffer :: debounceRun D ⟨[m], some (t + D)⟩ rest

/-- The character class `[A-Za-z0-9_-]` of the link-recognition pattern
(source line 560) — also the alphabet of `secrets.token_urlsafe`. -/
def urlTokenChar (c : Char) : Bool :=
  c.isAlphanum || c = '-' || c = '_'

/-- A character legal in a Telegram bot username (letters, digits,
underscore); such characters have no special regex meaning, so the username
interpolated into the pattern at line 560 is matched literally. -/
def usernameChar (c : Char) : Bool :=
  c.isAlphanum || c = '_'

/-- Match a literal character sequence at the head of the input, returning
the remainder. -/
def stripLit : List Char → List Char → Option (List Char)
  | [], s => some s
  | _ :: _, [] => none
  | p :: ps, c :: cs => if p = c then stripLit ps cs else none

/-- The greedy `[A-Za-z0-9_-]+` capture: the longest run of token characters
at the head of the input, plus the remainder. -/
def tokenRun : List Char → List Char × List Char
  | [] => ([], [])
  | c :: cs =>
    if urlTokenChar c then
      let (r, rest) := tokenRun cs
      (c :: r, rest)
    else ([], c :: cs)

/-- Model of `re.match` of the pattern
`https?://t\.me/{bot_username}\?start=([A-Za-z0-9_-]+)` built and matched by
`text_message_handler` (source lines 560-561), returning the captured
group(1).  `https?` is greedy, so `https://` is tried before `http://`; the
trailing capture is the longest run of token characters; match anchors at the
start of the text and ignores anything after the capture. -/
def matchStartLink (bot_username text : String) : Option String :=
  let afterScheme :=
    match stripLit "https://".data text.data with
    | some r => some r
    | none => stripLit "http://".data text.data
  match afterScheme with
  | none => none
  | some r1 =>
    match stripLit "t.me/".data r1 with
    | none => none
    | some r2 =>
      match stripLit bot_username.data r2 with
      | none => none
      | some r3 =>
        match stripLit "?start=".data r3 with
        | none => none
        | some r4 =>
          let tok := (tokenRun r4).1
          if tok.isEmpty then none else some (String.mk tok)

/-! ## Helper lemmas -/

theorem splitAtColon_eq_none (l : List Char) (h : ':' ∉ l) : splitAtColon l = none := by
  induction l with
  | nil => rfl
  | cons c cs ih =>
    simp only [List.mem_cons, not_or] at h
    simp only [splitAtColon, if_neg (Ne.symm h.1), ih h.2]

theorem splitAtColon_eq_some (a r : List Char) (h : ':' ∉ a) :
    splitAtColon (a ++ ':' :: r) = some (a, r) := by
  induction a with
  | nil => simp [splitAtColon]
  | cons c cs ih =>
    simp only [List.mem_cons, not_or] at h
    simp only [List.cons_append, splitAtColon, if_neg (Ne.symm h.1), List.append_eq,
      ih h.2]

theorem pySplit2_two (a b : List Char) (ha : ':' ∉ a) (hb : ':' ∉ b) :
    pySplit2 (a ++ ':' :: b) = [a, b] := by
  simp only [pySplit2, splitAtColon_eq_some a b ha, splitAtColon_eq_none b hb]

theorem pySplit2_three (a b c : List Char) (ha : ':' ∉ a) (hb : ':' ∉ b) :
    pySplit2 (a ++ ':' :: (b ++ ':' :: c)) = [a, b, c] := by
  simp only [pySplit2, splitAtColon_eq_some a _ ha, splitAtColon_eq_some b c hb]

theorem pySplit2_one (a : List Char) (ha : ':' ∉ a) : pySplit2 a = [a] := by
  simp only [pySplit2, splitAtColon_eq_none a ha]

/-! ## C6 — the gate fails closed -/

/-- Claim C6: whenever the `get_chat_member` collaborator call raises, the
authorization check `is_user_in_group` returns `false` — the principal is
treated as not authorized (fail-closed) — for every principal and every
failure. -/
theorem gate_failure_is_fail_closed (user_id : Nat) (e : String) :
    is_user_in_group user_id (Except.error e) = false := rfl

/-! ## C2 — pagination -/

/-- Counterexample to claim C2 as stated: at item count `N = 0` (with page
size 10 and requested page 1) the raw pagination computation yields
`total_pages = 0`, not `max 1 ⌈0 / 10⌉ = 1`, and the effective page 1 is not
clamped into `[1, total_pages] = [1, 0]`.  (The code never runs the
computation for `N = 0`: both call sites return early on an empty list.) -/
theorem paginate_zero_items_cx :
    ¬ ((paginate 0 10 1).total_pages = max 1 ((0 : Nat) ⌈/⌉ 10) ∧
       1 ≤ (paginate 0 10 1).page ∧
       (paginate 0 10 1).page ≤ (paginate 0 10 1).total_pages) := by
  decide

/-- Claim C2, amended to the item counts `N ≥ 1` that actually reach the
computation: for every page size `S > 0`, item count `N ≥ 1` and requested
page, `paginate` yields `total_pages = max 1 ⌈N / S⌉`, an effective page
clamped into `[1, total_pages]`, the offset `(page - 1) * S` with
`offset < N`, and a page window of length `min S (N - offset)` (never
negative: the length is a `Nat` and `offset < N`). -/
theorem paginate_correct (S N p : Nat) (hS : 0 < S) (hN : 1 ≤ N)
    (all_ids : List Nat) (hlen : all_ids.length = N) :
    (paginate N S p).total_pages = max 1 (N ⌈/⌉ S) ∧
    1 ≤ (paginate N S p).page ∧
    (paginate N S p).page ≤ (paginate N S p).total_pages ∧
    (paginate N S p).offset = ((paginate N S p).page - 1) * S ∧
    (paginate N S p).offset < N ∧
    (pageWindow all_ids (paginate N S p).offset S).length
      = min S (N - (paginate N S p).offset) := by
  have hkey : (N + S - 1) / S = (N - 1) / S + 1 := by
    have h : N + S - 1 = (N - 1) + S := by omega
    rw [h, Nat.add_div_right _ hS]
  have hT1 : 1 ≤ (N + S - 1) / S := by
    rw [hkey]; exact Nat.le_add_left 1 _
  have hceil : N ⌈/⌉ S = (N + S - 1) / S := Nat.ceilDiv_eq_add_pred_div N S
  have hdef : paginate N S p =
      { total_pages := (N + S - 1) / S
      , page := max 1 (min p ((N + S - 1) / S))
      , offset := (max 1 (min p ((N + S - 1) / S)) - 1) * S } := rfl
  rw [hdef]
  refine ⟨?_, ?_, ?_, rfl, ?_, ?_⟩
  · rw [hceil]
    exact (max_eq_right hT1).symm
  · exact le_max_left 1 _
  · exact max_le hT1 (min_le_right p _)
  · -- offset < N
    have hpage : max 1 (min p ((N + S - 1) / S)) ≤ (N + S - 1) / S :=
      max_le hT1 (min_le_right p _)
    have hdm : (N - 1) / S * S ≤ N - 1 := Nat.div_mul_le_self (N - 1) S
    generalize ht : (N + S - 1) / S = t at hpage hkey ⊢
    generalize hu : (N - 1) / S = u at hkey hdm
    have hm : max 1 (min p t) - 1 ≤ u := by omega
    calc (max 1 (min p t) - 1) * S
        ≤ u * S := Nat.mul_le_mul_right S hm
      _ ≤ N - 1 := hdm
      _ < N := by omega
  · simp [pageWindow, hlen]

/-- Witness for `paginate_correct` at `S = 10`, `N = 25`, requested page 99:
the clamp and window facts hold at a concrete input. -/
theorem paginate_correct_witness :
    (paginate 25 10 99).total_pages = max 1 ((25 : Nat) ⌈/⌉ 10) ∧
    1 ≤ (paginate 25 10 99).page ∧
    (paginate 25 10 99).page ≤ (paginate 25 10 99).total_pages ∧
    (paginate 25 10 99).offset = ((paginate 25 10 99).page - 1) * 10 ∧
    (paginate 25 10 99).offset < 25 ∧
    (pageWindow (List.range 25) (paginate 25 10 99).offset 10).length
      = min 10 (25 - (paginate 25 10 99).offset) :=
  paginate_correct 10 25 99 (by decide) (by decide) (List.range 25) (by decide)

/-! ## C10 — only non-empty sessions create a ShareRecord -/

/-- Claim C10: `finish_upload_handler` creates a `ShareRecord` only when the
session accumulated at least one item reference: with an empty session the
user gets the "no files uploaded" reply and nothing is inserted; consequently
the every-record-non-empty invariant of the registry is preserved. -/
theorem finish_upload_nonempty_refs (persistOk : Bool) (tok bu : String) (uid : Nat)
    (ud : UserData) (reg : List ShareRecord)
    (hreg : ∀ r ∈ reg, r.message_ids ≠ []) :
    (ud.session_message_ids = [] →
      (finish_upload_handler persistOk tok bu uid ud reg true).registry = reg ∧
      (finish_upload_handler persistOk tok bu uid ud reg true).msg = .noFiles) ∧
    (∀ r ∈ (finish_upload_handler persistOk tok bu uid ud reg true).registry,
      r.message_ids ≠ []) := by
  by_cases hempty : ud.session_message_ids.isEmpty
  · refine ⟨fun _ => ?_, fun r hr => ?_⟩
    · simp [finish_upload_handler, hempty]
    · simp only [finish_upload_handler, hempty] at hr
      simp at hr
      exact hreg r hr
  · have hne : ud.session_message_ids ≠ [] := by
      simpa [List.isEmpty_iff] using hempty
    refine ⟨fun h => absurd h hne, fun r hr => ?_⟩
    by_cases hp : persistOk
    · simp only [finish_upload_handler, hempty, hp] at hr
      simp [List.mem_append] at hr
      rcases hr with hr | hr
      · exact hreg r hr
      · rw [hr]
        exact hne
    · simp only [finish_upload_handler, hempty, hp] at hr
      simp at hr
      exact hreg r hr

/-- Witness for `finish_upload_nonempty_refs`: an empty session against an
empty registry inserts nothing and reports "no files". -/
theorem finish_upload_nonempty_refs_witness :
    (UserData.cleared.session_message_ids = [] →
      (finish_upload_handler true "tok" "bot" 1 UserData.cleared [] true).registry = [] ∧
      (finish_upload_handler true "tok" "bot" 1 UserData.cleared [] true).msg = .noFiles) ∧
    (∀ r ∈ (finish_upload_handler true "tok" "bot" 1 UserData.cleared [] true).registry,
      r.message_ids ≠ []) :=
  finish_upload_nonempty_refs true "tok" "bot" 1 UserData.cleared []
    (by intro r hr; cases hr)

/-! ## C4 — persistence failure during finish-upload -/

/-- Counterexample to claim C4 as stated: take a session holding the single
relayed ref `7` and let the registry INSERT fail.  The failure is surfaced as
the retryable "请稍后再试" edit, but the session IS drained: the refs were
popped before the insert and `user_data.clear()` runs on the error path too,
so the accumulated ref list is `[]` afterwards — not still `[7]`, i.e. not
available for a retry. -/
theorem finish_persist_failure_cx :
    (finish_upload_handler false "tok" "bot" 1
      { UserData.cleared with
        state := some "awaiting_file",
        session_message_ids := [7], session_file_count := 1 } [] true).msg
      = .persistFailed ∧
    (finish_upload_handler false "tok" "bot" 1
      { UserData.cleared with
        state := some "awaiting_file",
        session_message_ids := [7], session_file_count := 1 } [] true).userData.session_message_ids
      = [] ∧
    ¬ (finish_upload_handler false "tok" "bot" 1
      { UserData.cleared with
        state := some "awaiting_file",
        session_message_ids := [7], session_file_count := 1 } [] true).userData.session_message_ids
      = [7] := by
  decide

/-- Claim C4, amended: when persisting the ShareRecord fails during
finish-upload, the failure is surfaced as a retryable error and the registry
is left unchanged, but the session is NOT preserved: the handler pops the
accumulated refs up front and clears `user_data` on every path, so the
already-relayed refs are discarded from the session (the relayed copies stay
in the private channel, only logged) and a retry finds an empty session. -/
theorem finish_persist_failure_amended (tok bu : String) (uid : Nat) (ud : UserData)
    (reg : List ShareRecord) (hne : ud.session_message_ids ≠ []) :
    (finish_upload_handler false tok bu uid ud reg true).msg = .persistFailed ∧
    (finish_upload_handler false tok bu uid ud reg true).registry = reg ∧
    (finish_upload_handler false tok bu uid ud reg true).userData
      = { UserData.cleared with state := some "default" } := by
  have hempty : ud.session_message_ids.isEmpty = false := by
    simp [List.isEmpty_iff, hne]
  simp [finish_upload_handler, hempty]

/-- Witness for `finish_persist_failure_amended` at a concrete session. -/
theorem finish_persist_failure_amended_witness :
    (finish_upload_handler false "tok" "bot" 1
      { UserData.cleared with
        state := some "awaiting_file",
        session_message_ids := [9, 10], session_file_count := 2 } [] true).msg
      = .persistFailed ∧
    (finish_upload_handler false "tok" "bot" 1
      { UserData.cleared with
        state := some "awaiting_file",
        session_message_ids := [9, 10], session_file_count := 2 } [] true).registry = [] ∧
    (finish_upload_handler false "tok" "bot" 1
      { UserData.cleared with
        state := some "awaiting_file",
        session_message_ids := [9, 10], session_file_count := 2 } [] true).userData
      = { UserData.cleared with state := some "default" } :=
  finish_persist_failure_amended "tok" "bot" 1 _ [] (by decide)

/-! ## C7 — cancel of a collecting session -/

/-- Counterexample to claim C7 as stated: a collecting session already holds
the relayed refs `[5, 6]`; `/cancel` (with a healthy database and an empty
registry) creates no ShareRecord from them — the registry stays empty and the
"no files uploaded" reply fires — and the refs are gone from the session:
nothing was drained, the refs were discarded. -/
theorem cancel_discards_session_cx :
    (cancel_command true "tok" "bot" 1
      { UserData.cleared with
        state := some "awaiting_file",
        session_message_ids := [5, 6], session_file_count := 2 } [] true).registry = [] ∧
    (cancel_command true "tok" "bot" 1
      { UserData.cleared with
        state := some "awaiting_file",
        session_message_ids := [5, 6], session_file_count := 2 } [] true).msg = .noFiles ∧
    (cancel_command true "tok" "bot" 1
      { UserData.cleared with
        state := some "awaiting_file",
        session_message_ids := [5, 6], session_file_count := 2 } [] true).userData.session_message_ids
      = [] := by
  decide

/-- Claim C7, amended: `cancel_command` runs `user_data.clear()` BEFORE
handing over to `finish_upload_handler`, so the already-relayed refs are
discarded rather than drained: for every session and registry, cancelling in
a private chat leaves the registry unchanged (no ShareRecord is created from
the accumulated refs), produces the empty-session "no files" reply, and
resets the session to the default state. -/
theorem cancel_clears_session (persistOk : Bool) (tok bu : String) (uid : Nat)
    (ud : UserData) (reg : List ShareRecord) :
    (cancel_command persistOk tok bu uid ud reg true).registry = reg ∧
    (cancel_command persistOk tok bu uid ud reg true).msg = .noFiles ∧
    (cancel_command persistOk tok bu uid ud reg true).userData
      = { UserData.cleared with state := some "default" } := by
  simp [cancel_command, finish_upload_handler, UserData.cleared]

/-! ## C1 — debounced media-group aggregation -/

theorem debounceRun_coalesce (D : Nat) (rest : List (Nat × Nat)) :
    ∀ (buf : List Nat) (d : Nat),
      List.Chain' (fun a b => b.1 < a.1 + D) rest →
      (∀ q ∈ rest.head?, q.1 < d) →
      debounceRun D ⟨buf, some d⟩ rest = [buf ++ rest.map Prod.snd] := by
  induction rest with
  | nil =>
    intro buf d _ _
    simp [debounceRun]
  | cons a rest ih =>
    intro buf d hchain hhead
    obtain ⟨t, m⟩ := a
    have ht : t < d := hhead (t, m) rfl
    have hchain2 : List.Chain' (fun a b => b.1 < a.1 + D) rest := hchain.tail
    have hhead2 : ∀ q ∈ rest.head?, q.1 < t + D := by
      cases rest with
      | nil => intro q hq; cases hq
      | cons b rest2 =>
        intro q hq
        simp only [List.head?_cons, Option.mem_def, Option.some.injEq] at hq
        subst hq
        exact (List.chain'_cons.mp hchain).1
    simp only [debounceRun, if_pos ht]
    rw [ih (buf ++ [m]) (t + D) hchain2 hhead2]
    simp

/-- Claim C1: for every sequence of `K ≥ 1` media-group items whose
inter-arrival gaps are all strictly below the debounce delay `D = 2`, the
aggregator fires exactly one drain job for the group, and its batch holds all
`K` message ids in arrival order: each arrival cancels the previously
scheduled job before scheduling a new one, so no buffer is drained twice. -/
theorem media_group_single_drain (arrivals : List (Nat × Nat))
    (hK : arrivals ≠ [])
    (hgaps : List.Chain' (fun a b => b.1 < a.1 + 2) arrivals) :
    debounceRun 2 ⟨[], none⟩ arrivals = [arrivals.map Prod.snd] := by
  cases arrivals with
  | nil => exact absurd rfl hK
  | cons a rest =>
    obtain ⟨t, m⟩ := a
    have hhead : ∀ q ∈ rest.head?, q.1 < t + 2 := by
      cases rest with
      | nil => intro q hq; cases hq
      | cons b rest2 =>
        intro q hq
        simp only [List.head?_cons, Option.mem_def, Option.some.injEq] at hq
        subst hq
        exact (List.chain'_cons.mp hgaps).1
    simp only [debounceRun]
    rw [debounceRun_coalesce 2 rest [m] (t + 2) hgaps.tail hhead]
    simp

/-- Witness for `media_group_single_drain`: three items arriving at times
0, 1, 2 (gaps of 1 < 2) drain as the single batch `[10, 11, 12]`. -/
theorem media_group_single_drain_witness :
    ([((0 : Nat), (10 : Nat)), (1, 11), (2, 12)] ≠ ([] : List (Nat × Nat))) ∧
    debounceRun 2 ⟨[], none⟩ [(0, 10), (1, 11), (2, 12)] = [[10, 11, 12]] :=
  ⟨by decide,
   media_group_single_drain [(0, 10), (1, 11), (2, 12)] (by decide)
     (by norm_num [List.chain'_cons, List.chain'_singleton])⟩

/-! ## C9 — share links round-trip through the text-message pattern -/

theorem stripLit_append (a r : List Char) : stripLit a (a ++ r) = some r := by
  induction a with
  | nil => rfl
  | cons c cs ih => simp [stripLit, ih]

theorem tokenRun_of_all (l : List Char) (h : ∀ c ∈ l, urlTokenChar c = true) :
    tokenRun l = (l, []) := by
  induction l with
  | nil => rfl
  | cons c cs ih =>
    have hc : urlTokenChar c = true := h c (List.mem_cons_self c cs)
    have ih2 := ih (fun x hx => h x (List.mem_cons_of_mem c hx))
    simp [tokenRun, hc, ih2]

/-- Claim C9: for every share token over the URL-safe-base64 alphabet (as
produced by `secrets.token_urlsafe(8)` at finish-upload) and every bot
username (whose characters regex-match literally), the generated link
`https://t.me/<bot_username>?start=<token>` matches the link-recognition
pattern of `text_message_handler`, and the captured group equals the original
token. -/
theorem share_link_round_trip (bu tok : String)
    (hbu : ∀ c ∈ bu.data, usernameChar c = true)
    (htok : ∀ c ∈ tok.data, urlTokenChar c = true)
    (hne : tok ≠ "") :
    matchStartLink bu (shareLink bu tok) = some tok := by
  have htokne : tok.data ≠ [] := fun h => hne (String.ext h)
  have hlit : ("https://t.me/" : String).data = "https://".data ++ "t.me/".data := by
    decide
  have hdata : (shareLink bu tok).data
      = "https://".data ++ ("t.me/".data ++ (bu.data ++ ("?start=".data ++ tok.data))) := by
    simp only [shareLink, String.data_append, hlit, List.append_assoc]
    rfl
  have hempty : tok.data.isEmpty = false := by
    simp [List.isEmpty_iff, htokne]
  simp only [matchStartLink, hdata, stripLit_append, tokenRun_of_all tok.data htok,
    hempty, Bool.false_eq_true, if_false]

/-- Witness for `share_link_round_trip` at a concrete username and a concrete
11-character `token_urlsafe(8)`-shaped token. -/
theorem share_link_round_trip_witness :
    matchStartLink "mybot" (shareLink "mybot" "q5WJ-L_YUEE") = some "q5WJ-L_YUEE" :=
  share_link_round_trip "mybot" "q5WJ-L_YUEE" (by decide) (by decide) (by decide)

/-! ## C3 — delete-share by a non-owner -/

/-- Claim C3: for every `delete` callback by a requester who is not the
record's owner, the handler answers with the permission-denied alert, the
registry row is not deleted, no relayed items are retracted from the channel,
and the session dict is untouched. -/
theorem delete_share_non_owner_forbidden (bu : String) (reg : List ShareRecord)
    (ud : UserData) (uid : Nat) (sid : String) (r : ShareRecord)
    (hsid : ':' ∉ sid.data)
    (hfind : reg.find? (fun q => q.share_id == sid) = some r)
    (hown : r.uploader_id ≠ uid) :
    button_callback_handler bu reg ud uid ("delete:" ++ sid ++ ":1")
      = ⟨ud, reg, [], [], .forbidden⟩ := by
  have hdata : ("delete:" ++ sid ++ ":1").data
      = "delete".data ++ ':' :: (sid.data ++ ':' :: "1".data) := by
    simp only [String.data_append, List.append_assoc]
    rfl
  have hparts : pySplit2 ("delete:" ++ sid ++ ":1").data
      = ["delete".data, sid.data, "1".data] := by
    rw [hdata]
    exact pySplit2_three _ _ _ (by decide) hsid
  have e1 := eq_false (show ¬("delete".data = "spage".data) by decide)
  have e2 := eq_false (show ¬("delete".data = "page".data) by decide)
  have hp : parseNat "1".data = some 1 := by decide
  have hmk : String.mk sid.data = sid := rfl
  unfold button_callback_handler
  rw [hparts]
  simp only [List.headD_cons, List.getD_cons_succ, List.getD_cons_zero, List.length_cons,
    e1, e2, if_false, hp, hmk]
  simp only [show ("delete".data = "delete".data) = True from eq_true rfl, if_true]
  simp only [List.length_nil, hfind]
  simp [hown]

/-- Witness for `delete_share_non_owner_forbidden`: requester 9 cannot delete
the record owned by uploader 7. -/
theorem delete_share_non_owner_forbidden_witness :
    button_callback_handler "bot" [⟨"abc", [100], 7, "cap", "合集"⟩]
      UserData.cleared 9 ("delete:" ++ "abc" ++ ":1")
      = ⟨UserData.cleared, [⟨"abc", [100], 7, "cap", "合集"⟩], [], [], .forbidden⟩ :=
  delete_share_non_owner_forbidden "bot" [⟨"abc", [100], 7, "cap", "合集"⟩]
    UserData.cleared 9 "abc" ⟨"abc", [100], 7, "cap", "合集"⟩
    (by decide) (by decide) (by decide)

/-! ## C5 — gate re-check on retrieval steps -/

/-- Counterexample to claim C5 as stated: principal 9 is unauthorized
(every gate call fails, hence `is_user_in_group` is `false`), yet the `spage`
page-navigation callback still delivers the share's items — the callback
handler performs no authorization check at all. -/
theorem gate_not_rechecked_on_navigation_cx :
    is_user_in_group 9 (Except.error "revoked") = false ∧
    (button_callback_handler "bot" [⟨"abc", [100, 101], 7, "cap", "合集"⟩]
       UserData.cleared 9 "spage:1:abc").delivered = [100, 101] ∧
    [100, 101] ≠ ([] : List Nat) := by
  decide

/-- Claim C5, amended: the Gate is re-checked only on the `/start` entry
point — there an unauthorized principal gets no items and the token is stored
as `pending_share_id` — while page-navigation callbacks perform no gate check
at all: `button_callback_handler` takes no gate input, and for any registry
record it delivers the requested page window to any principal. -/
theorem gate_checked_on_start_only :
    (∀ (gr : Except String ChatMemberStatus) (uid : Nat) (reg : List ShareRecord)
       (t : String),
      is_user_in_group uid gr = false →
      start gr uid reg (some t) true
        = ({ UserData.cleared with pending_share_id := some t }, .restricted)) ∧
    (∀ (bu : String) (reg : List ShareRecord) (ud : UserData) (uid : Nat)
       (ps sid : String) (p : Nat) (r : ShareRecord),
      ':' ∉ ps.data → ':' ∉ sid.data →
      parseNat ps.data = some p →
      reg.find? (fun q => q.share_id == sid) = some r →
      r.message_ids ≠ [] →
      (button_callback_handler bu reg ud uid ("spage:" ++ ps ++ ":" ++ sid)).delivered
        = pageWindow r.message_ids
            (paginate r.message_ids.length FILES_PER_PAGE p).offset FILES_PER_PAGE) := by
  constructor
  · intro gr uid reg t hgate
    simp [start, hgate]
  · intro bu reg ud uid ps sid p r hps hsid hp hfind hne
    have hdata : ("spage:" ++ ps ++ ":" ++ sid).data
        = "spage".data ++ ':' :: (ps.data ++ ':' :: sid.data) := by
      simp only [String.data_append, List.append_assoc]
      rfl
    have hparts : pySplit2 ("spage:" ++ ps ++ ":" ++ sid).data
        = ["spage".data, ps.data, sid.data] := by
      rw [hdata]
      exact pySplit2_three _ _ _ (by decide) hps
    have e2 := eq_false (show ¬("spage".data = "page".data) by decide)
    have hmk : String.mk sid.data = sid := rfl
    have hlen0 : ¬(r.message_ids.length = 0) := by
      simpa [List.length_eq_zero] using hne
    unfold button_callback_handler
    rw [hparts]
    simp only [List.headD_cons, List.getD_cons_succ, List.getD_cons_zero, List.length_cons,
      e2, if_false, hp, hmk]
    simp only [show ("spage".data = "spage".data) = True from eq_true rfl, if_true]
    simp only [List.length_nil, showSharedFilesPage, hfind]
    simp [hlen0, FILES_PER_PAGE]

/-- Witness for `gate_checked_on_start_only`: an unauthorized `/start` stores
the pending token without delivering items, while the navigation callback
delivers page 1 of the record to principal 9 with no gate involved. -/
theorem gate_checked_on_start_only_witness :
    (start (.error "x") 9 [] (some "abc") true
      = ({ UserData.cleared with pending_share_id := some "abc" }, .restricted)) ∧
    (button_callback_handler "bot" [⟨"abc", [100, 101], 7, "cap", "合集"⟩]
       UserData.cleared 9 ("spage:" ++ "1" ++ ":" ++ "abc")).delivered
      = pageWindow [100, 101] (paginate 2 FILES_PER_PAGE 1).offset FILES_PER_PAGE :=
  ⟨gate_checked_on_start_only.1 (.error "x") 9 [] "abc" (by decide),
   gate_checked_on_start_only.2 "bot" [⟨"abc", [100, 101], 7, "cap", "合集"⟩]
     UserData.cleared 9 "1" "abc" 1 ⟨"abc", [100, 101], 7, "cap", "合集"⟩
     (by decide) (by decide) (by decide) (by decide) (by decide)⟩

/-! ## C8 — the pagination keyboard -/

theorem handler_noop_action (bu : String) (reg : List ShareRecord) (ud : UserData)
    (uid : Nat) (data : String)
    (h : (pySplit2 data.data).headD [] = "noop".data) :
    button_callback_handler bu reg ud uid data = ⟨ud, reg, [], [], .silent⟩ := by
  have e1 := eq_false (show ¬("noop".data = "spage".data) by decide)
  have e2 := eq_false (show ¬("noop".data = "page".data) by decide)
  have e3 := eq_false (show ¬("noop".data = "delete".data) by decide)
  have e4 := eq_false (show ¬("noop".data = "info".data) by decide)
  simp only [button_callback_handler]
  rw [h]
  simp only [e1, e2, e3, e4, if_false]

theorem noop_data_parts (sid : Option String) (hsid : ∀ s, sid = some s → ':' ∉ s.data) :
    (pySplit2 (addShareId "noop" sid).data).headD [] = "noop".data := by
  match sid with
  | none => decide
  | some s =>
    by_cases hs : s = ""
    · subst hs; decide
    · have hcolon := hsid s rfl
      have hdata : (addShareId "noop" (some s)).data = "noop".data ++ ':' :: s.data := by
        simp only [addShareId, if_neg hs, String.data_append]
        rfl
      rw [hdata, pySplit2_two _ _ (by decide) hcolon]
      rfl

/-- Claim C8: for every current page `p ∈ [1, total_pages]`, the keyboard
carries at most 5 page-number controls forming a contiguous `List.range'`
block containing `p` and clamped to `[1, total_pages]`; the prev/first
controls appear exactly when `p > 1` and the next/last controls exactly when
`p < total_pages`; the current page's own control carries the `"noop"`
action, and activating that action leaves the session, the registry, the
deliveries and the retractions untouched. -/
theorem pagination_keyboard_correct (p T : Nat) (tag : String) (sid : Option String)
    (hp1 : 1 ≤ p) (hpT : p ≤ T)
    (hsid : ∀ s, sid = some s → ':' ∉ s.data) :
    ∃ sp len,
      1 ≤ sp ∧ len ≤ 5 ∧ sp ≤ p ∧ p < sp + len ∧ sp + len ≤ T + 1 ∧
      create_pagination_keyboard p T tag sid
        = (if 1 < T then
            [(List.range' sp len).map (fun q =>
              { text := pageBtnText q p
              , callback_data :=
                  addShareId (if q = p then "noop" else tag ++ ":" ++ toString q) sid })]
           else []) ++
          (if 1 < p then
            (if p < T then
              [[⟨"‹ 上一页", addShareId (tag ++ ":" ++ toString (p - 1)) sid⟩,
                ⟨"下一页 ›", addShareId (tag ++ ":" ++ toString (p + 1)) sid⟩]]
             else [[⟨"‹ 上一页", addShareId (tag ++ ":" ++ toString (p - 1)) sid⟩]])
           else
            (if p < T then
              [[⟨"下一页 ›", addShareId (tag ++ ":" ++ toString (p + 1)) sid⟩]]
             else [])) ++
          (if 1 < p then
            (if p < T then
              [[⟨"« 首页", addShareId (tag ++ ":1") sid⟩,
                ⟨"末页 »", addShareId (tag ++ ":" ++ toString T) sid⟩]]
             else [[⟨"« 首页", addShareId (tag ++ ":1") sid⟩]])
           else
            (if p < T then
              [[⟨"末页 »", addShareId (tag ++ ":" ++ toString T) sid⟩]]
             else [])) ∧
      (1 < T →
        (⟨pageBtnText p p, addShareId "noop" sid⟩ : InlineKeyboardButton)
          ∈ (List.range' sp len).map (fun q =>
              { text := pageBtnText q p
              , callback_data :=
                  addShareId (if q = p then "noop" else tag ++ ":" ++ toString q) sid })) ∧
      (∀ (bu : String) (reg : List ShareRecord) (ud : UserData) (uid : Nat),
        button_callback_handler bu reg ud uid (addShareId "noop" sid)
          = ⟨ud, reg, [], [], .silent⟩) := by
  refine ⟨max 1 (min T (max 1 (p - 2) + 4) - 4),
          min T (max 1 (p - 2) + 4) + 1 - max 1 (min T (max 1 (p - 2) + 4) - 4),
          by omega, by omega, by omega, by omega, by omega, ?_, ?_, ?_⟩
  · simp only [create_pagination_keyboard]
    by_cases h1 : 1 < p <;> by_cases h2 : p < T <;>
      simp [h1, h2]
  · intro _
    refine List.mem_map.mpr ⟨p, ?_, ?_⟩
    · rw [List.mem_range'_1]
      constructor
      · omega
      · omega
    · simp
  · intro bu reg ud uid
    exact handler_noop_action bu reg ud uid _ (noop_data_parts sid hsid)

/-- Witness for `pagination_keyboard_correct` at page 3 of 10 with the
`spage` action and share id `"abc"`. -/
theorem pagination_keyboard_correct_witness :
    ∃ sp len,
      1 ≤ sp ∧ len ≤ 5 ∧ sp ≤ 3 ∧ 3 < sp + len ∧ sp + len ≤ 10 + 1 ∧
      create_pagination_keyboard 3 10 "spage" (some "abc")
        = (if 1 < 10 then
            [(List.range' sp len).map (fun q =>
              { text := pageBtnText q 3
              , callback_data :=
                  addShareId (if q = 3 then "noop" else "spage" ++ ":" ++ toString q)
                    (some "abc") })]
           else []) ++
          (if 1 < 3 then
            (if 3 < 10 then
              [[⟨"‹ 上一页", addShareId ("spage" ++ ":" ++ toString (3 - 1)) (some "abc")⟩,
                ⟨"下一页 ›", addShareId ("spage" ++ ":" ++ toString (3 + 1)) (some "abc")⟩]]
             else [[⟨"‹ 上一页", addShareId ("spage" ++ ":" ++ toString (3 - 1)) (some "abc")⟩]])
           else
            (if 3 < 10 then
              [[⟨"下一页 ›", addShareId ("spage" ++ ":" ++ toString (3 + 1)) (some "abc")⟩]]
             else [])) ++
          (if 1 < 3 then
            (if 3 < 10 then
              [[⟨"« 首页", addShareId ("spage" ++ ":1") (some "abc")⟩,
                ⟨"末页 »", addShareId ("spage" ++ ":" ++ toString 10) (some "abc")⟩]]
             else [[⟨"« 首页", addShareId ("spage" ++ ":1") (some "abc")⟩]])
           else
            (if 3 < 10 then
              [[⟨"末页 »", addShareId ("spage" ++ ":" ++ toString 10) (some "abc")⟩]]
             else [])) ∧
      (1 < 10 →
        (⟨pageBtnText 3 3, addShareId "noop" (some "abc")⟩ : InlineKeyboardButton)
          ∈ (List.range' sp len).map (fun q =>
              { text := pageBtnText q 3
              , callback_data :=
                  addShareId (if q = 3 then "noop" else "spage" ++ ":" ++ toString q)
                    (some "abc") })) ∧
      (∀ (bu : String) (reg : List ShareRecord) (ud : UserData) (uid : Nat),
        button_callback_handler bu reg ud uid (addShareId "noop" (some "abc"))
          = ⟨ud, reg, [], [], .silent⟩) :=
  pagination_keyboard_correct 3 10 "spage" (some "abc") (by decide) (by decide)
    (fun s hs => by cases hs; decide)
